import Mathlib

/-!
Shallow embedding of the WatermarkLabelTool frontend session logic.

The repository contains two parallel frontend flows:
* an index-based app (`src/unnamed/part_000`, first document: `state`,
  `selectType`, `loadCurrentImage`, `loadImageByIndex`, `annotate`,
  `skipImage`, `navigateNext`, `navigatePrev`, `undoAction`,
  `updateTargetStats`), modelled here in namespace `AppV1`;
* a store-based app (`src/unnamed/part_000`, second document, plus the
  `Store` class of `src/unnamed/part_001`: `selectDataset`,
  `loadCurrentImage`, `updateProgress`, `handleAnnotation`, `handleSkip`,
  `handleDelete`, `handleNavigate`, `handleUndo`), modelled in namespace
  `AppV2`, together with `ui.updateStats` from `src/frontend/js/ui.js`.

Asynchronous execution is single-threaded and runs each operation to
completion (suspension only at network boundaries), so every operation is
embedded as a pure function from the pre-state and an API oracle to the
post-state paired with the ordered list of observable events it produces
(network requests issued, store subscriber notifications, toasts and other
UI effects).  A network call that throws is modelled by the oracle
returning `Except.error`; a call that resolves returns `Except.ok`.
JavaScript `null`/`undefined` record fields are modelled with `Option`
(falsiness tests `!x` on dataset names and paths are modelled as
`Option.isNone`; the empty string never arises for these fields).
-/

/-- Server image metadata: response of `api.getCurrentImage` /
`api.getImageByIndex` — `{path, index, status}`. -/
structure ImageInfo where
  path : String
  index : Int
  status : String
deriving DecidableEq, Repr

/-- Server progress record: response of `api.getProgress`. -/
structure Progress where
  total_images : Int
  annotated_count : Int
  watermarked_count : Int
  non_watermarked_count : Int
deriving DecidableEq, Repr

/-- Response of `api.navigateNext` / `api.navigatePrev`:
`{success, index}`. -/
structure NavResult where
  success : Bool
  index : Int
deriving DecidableEq, Repr

/-- Response of `api.undo` / `api.redo`: `{success, message}`. -/
structure UndoResult where
  success : Bool
  message : String
deriving DecidableEq, Repr

/-- A `target_count` / `current_count` pair of counters. -/
structure CountPair where
  watermarked : Int
  non_watermarked : Int
deriving DecidableEq, Repr

/-- A dataset type record as served by `api.getTypes`.  `target_count`
and `current_count` may be absent in JavaScript (`undefined`), hence
`Option`. -/
structure DatasetRec where
  name : String
  target_count : Option CountPair
  current_count : Option CountPair
  priority : Int
deriving DecidableEq, Repr

/-- Identifies one network request issued through the `api` client. -/
inductive Call where
  | getCurrentImage (dataset : String)
  | getImageByIndex (dataset : String) (index : Int)
  | getImageBase64 (dataset : String) (index : Int)
  | getProgress (dataset : String)
  | navigateNext (dataset : String)
  | navigatePrev (dataset : String)
  | createAnnot (path : String) (label : Int) (dataset : String)
  | skipCall (path : String) (dataset : String)
  | deleteImage (dataset : String) (path : String)
  | undoCall
  | getTypes (skipScan : Bool)
deriving DecidableEq, Repr

/-- API oracle: the response each endpoint would give during the operation
under consideration.  `Except.error m` models a rejected promise with
message `m`. -/
structure Api where
  getCurrentImage : String → Except String ImageInfo
  getImageByIndex : String → Int → Except String ImageInfo
  getImageBase64 : String → Int → Except String String
  getProgress : String → Except String Progress
  navigateNext : String → Except String NavResult
  navigatePrev : String → Except String NavResult
  createAnnot : String → Int → String → Except String Unit
  skipImage : String → String → Except String Unit
  deleteImage : String → String → Except String Unit
  undo : Except String UndoResult
  getTypes : Bool → Except String (List DatasetRec)

/-! ## Store-based app (`AppV2`): `src/unnamed/part_001` Store and the
second document of `src/unnamed/part_000`. -/

namespace AppV2

/-- The `state.image` sub-record of the Store (`src/unnamed/part_001`,
lines 12–18). -/
structure ImageRec where
  data : Option String
  path : Option String
  index : Int
  total : Int
  status : String
deriving DecidableEq, Repr

/-- The `state.stats` sub-record of the Store (`src/unnamed/part_001`,
lines 20–25). -/
structure StatsRec where
  watermarked : Int
  noWatermarked : Int
  targetWatermarked : Int
  targetNoWatermarked : Int
deriving DecidableEq, Repr

/-- The whole Store state (`src/unnamed/part_001`, lines 8–28). -/
structure StoreState where
  currentDataset : Option String
  datasets : List DatasetRec
  image : ImageRec
  stats : StatsRec
  isLoading : Bool
deriving DecidableEq, Repr

/-- The initial Store state built in the `Store` constructor. -/
def initialState : StoreState :=
  { currentDataset := none
    datasets := []
    image := { data := none, path := none, index := 0, total := 0, status := "pending" }
    stats := { watermarked := 0, noWatermarked := 0, targetWatermarked := 0, targetNoWatermarked := 0 }
    isLoading := false }

/-- A partial update passed to `store.updateImage`: `some v` means the
JavaScript object literal carries that key with value `v`, `none` means
the key is absent.  (`data`/`path` values are themselves nullable.) -/
structure ImagePatch where
  data : Option (Option String)
  path : Option (Option String)
  index : Option Int
  total : Option Int
  status : Option String
deriving DecidableEq, Repr

/-- A partial update passed to `store.updateStats`. -/
structure StatsPatch where
  watermarked : Option Int
  noWatermarked : Option Int
  targetWatermarked : Option Int
  targetNoWatermarked : Option Int
deriving DecidableEq, Repr

/-- A partial update passed to `store.setState` at the top level.
`refreshDatasets` uses `setState({datasets})`; the named helpers use the
other keys. -/
structure StatePatch where
  currentDataset : Option (Option String)
  datasets : Option (List DatasetRec)
  image : Option ImageRec
  stats : Option StatsRec
  isLoading : Option Bool
deriving DecidableEq, Repr

/-- JavaScript spread `{...this.state.image, ...imageInfo}`. -/
def mergeImage (img : ImageRec) (p : ImagePatch) : ImageRec :=
  { data := p.data.getD img.data
    path := p.path.getD img.path
    index := p.index.getD img.index
    total := p.total.getD img.total
    status := p.status.getD img.status }

/-- JavaScript spread `{...this.state.stats, ...stats}`. -/
def mergeStats (st : StatsRec) (p : StatsPatch) : StatsRec :=
  { watermarked := p.watermarked.getD st.watermarked
    noWatermarked := p.noWatermarked.getD st.noWatermarked
    targetWatermarked := p.targetWatermarked.getD st.targetWatermarked
    targetNoWatermarked := p.targetNoWatermarked.getD st.targetNoWatermarked }

/-- Embeds `Store.setState(newState)`: `this.state = {...this.state, ...newState}`
(a fresh object replaces the old; in this pure embedding the argument
state is of course left untouched). -/
def setState (s : StoreState) (p : StatePatch) : StoreState :=
  { currentDataset := p.currentDataset.getD s.currentDataset
    datasets := p.datasets.getD s.datasets
    image := p.image.getD s.image
    stats := p.stats.getD s.stats
    isLoading := p.isLoading.getD s.isLoading }

/-- Embeds `Store.updateDataset(datasetName)` =
`setState({currentDataset: datasetName})`. -/
def updateDataset (s : StoreState) (name : String) : StoreState :=
  setState s
    { currentDataset := some (some name), datasets := none, image := none,
      stats := none, isLoading := none }

/-- Embeds `Store.updateImage(imageInfo)` =
`setState({image: {...this.state.image, ...imageInfo}})`. -/
def updateImage (s : StoreState) (p : ImagePatch) : StoreState :=
  setState s
    { currentDataset := none, datasets := none,
      image := some (mergeImage s.image p), stats := none, isLoading := none }

/-- Embeds `Store.updateStats(stats)` =
`setState({stats: {...this.state.stats, ...stats}})`. -/
def updateStats (s : StoreState) (p : StatsPatch) : StoreState :=
  setState s
    { currentDataset := none, datasets := none, image := none,
      stats := some (mergeStats s.stats p), isLoading := none }

/-- Embeds `Store.setLoading(loading)` = `setState({isLoading: loading})`. -/
def setLoading (s : StoreState) (b : Bool) : StoreState :=
  setState s
    { currentDataset := none, datasets := none, image := none,
      stats := none, isLoading := some b }

/-- Observable events of the store-based app, in order of occurrence:
subscriber notifications (`Store.notify`, carrying the state snapshot
delivered to every listener), network requests, toasts and the other UI
effects the flow functions perform. -/
inductive Event where
  | notify (s : StoreState)
  | call (c : Call)
  | toast (message : String) (kind : String)
  | highlight (btnId : String)
  | setHeader (name : String)
deriving DecidableEq, Repr

/-- The state carried by the first `notify` event of a trace, if any. -/
def firstNotify : List Event → Option StoreState
  | [] => none
  | Event.notify s :: _ => some s
  | _ :: es => firstNotify es

/-- Holds (`true`) iff the trace contains a toast. -/
def hasToast (es : List Event) : Bool :=
  es.any fun e => match e with | Event.toast _ _ => true | _ => false

/-- Holds (`true`) iff the trace contains a network request. -/
def hasCall (es : List Event) : Bool :=
  es.any fun e => match e with | Event.call _ => true | _ => false

/-- The `{data: null, path: null}` patch used in the
catch branch of `loadCurrentImage`. -/
def clearPatch : ImagePatch :=
  { data := some none, path := some none, index := none, total := none, status := none }

/-- Embeds `loadCurrentImage` of the store-based app
(`src/unnamed/part_000`, lines 423–449): guard on `currentDataset` only,
`setLoading(true)`, metadata fetch, payload fetch, `updateImage` with the
full new record on success; on any thrown error `updateImage({data:null,
path:null})` (the error is only logged, no toast); `setLoading(false)` in
`finally`. -/
def loadCurrentImage (api : Api) (s : StoreState) : StoreState × List Event :=
  match s.currentDataset with
  | none => (s, [])
  | some dataset =>
    let s1 := setLoading s true
    match api.getCurrentImage dataset with
    | Except.error _ =>
      let s2 := updateImage s1 clearPatch
      let s3 := setLoading s2 false
      (s3, [Event.notify s1, Event.call (Call.getCurrentImage dataset),
            Event.notify s2, Event.notify s3])
    | Except.ok info =>
      match api.getImageBase64 dataset info.index with
      | Except.error _ =>
        let s2 := updateImage s1 clearPatch
        let s3 := setLoading s2 false
        (s3, [Event.notify s1, Event.call (Call.getCurrentImage dataset),
              Event.call (Call.getImageBase64 dataset info.index),
              Event.notify s2, Event.notify s3])
      | Except.ok b64 =>
        let s2 := updateImage s1
          { data := some (some b64), path := some (some info.path),
            index := some info.index, total := none, status := some info.status }
        let s3 := setLoading s2 false
        (s3, [Event.notify s1, Event.call (Call.getCurrentImage dataset),
              Event.call (Call.getImageBase64 dataset info.index),
              Event.notify s2, Event.notify s3])

/-- Embeds `updateProgress` of the store-based app
(`src/unnamed/part_000`, lines 451–471): fetch progress, merge the two
counters into `stats`, then merge `total_images` into `image`; a thrown
error is swallowed silently. -/
def updateProgress (api : Api) (s : StoreState) : StoreState × List Event :=
  match s.currentDataset with
  | none => (s, [])
  | some dataset =>
    match api.getProgress dataset with
    | Except.error _ => (s, [Event.call (Call.getProgress dataset)])
    | Except.ok p =>
      let s1 := updateStats s
        { watermarked := some p.watermarked_count,
          noWatermarked := some p.non_watermarked_count,
          targetWatermarked := none, targetNoWatermarked := none }
      let s2 := updateImage s1
        { data := none, path := none, index := none,
          total := some p.total_images, status := none }
      (s2, [Event.call (Call.getProgress dataset), Event.notify s1, Event.notify s2])

/-- Embeds `selectDataset(name)` (`src/unnamed/part_000`, lines 404–421):
no-op when `name` is already current; otherwise `store.updateDataset(name)`
(which notifies immediately), `ui.setHeader(name)`, a stats update with the
targets of the dataset when available, then `loadCurrentImage()` and
`updateProgress()`. -/
def selectDataset (api : Api) (s : StoreState) (name : String) : StoreState × List Event :=
  if s.currentDataset = some name then (s, [])
  else
    let s1 := updateDataset s name
    let ev1 := [Event.notify s1, Event.setHeader name]
    let step2 : StoreState × List Event :=
      match s1.datasets.find? (fun d => d.name = name) with
      | some d =>
        match d.target_count with
        | some tc =>
          let s2 := updateStats s1
            { watermarked := none, noWatermarked := none,
              targetWatermarked := some tc.watermarked,
              targetNoWatermarked := some tc.non_watermarked }
          (s2, [Event.notify s2])
        | none => (s1, [])
      | none => (s1, [])
    let r3 := loadCurrentImage api step2.1
    let r4 := updateProgress api r3.1
    (r4.1, ev1 ++ step2.2 ++ r3.2 ++ r4.2)

/-- Embeds `handleNavigate(direction)` (`src/unnamed/part_000`, lines 535–547):
guard on `currentDataset` only; issues the navigation request, ignores its
result entirely (including the boundary flag), then reloads the current
image; a thrown navigation error yields the generic toast. -/
def handleNavigate (api : Api) (s : StoreState) (direction : String) : StoreState × List Event :=
  match s.currentDataset with
  | none => (s, [])
  | some dataset =>
    let nav := if direction = "next" then api.navigateNext dataset else api.navigatePrev dataset
    let navCall := if direction = "next" then Call.navigateNext dataset else Call.navigatePrev dataset
    match nav with
    | Except.error _ => (s, [Event.call navCall, Event.toast "无法导航" "error"])
    | Except.ok _ =>
      let r1 := loadCurrentImage api s
      (r1.1, Event.call navCall :: r1.2)

/-- Embeds `handleUndo()` (`src/unnamed/part_000`, lines 549–562): on
`res.success` reload the image and refresh progress; otherwise toast the
server-provided `res.message` as a warning without touching the state. -/
def handleUndo (api : Api) (s : StoreState) : StoreState × List Event :=
  match api.undo with
  | Except.error _ => (s, [Event.call Call.undoCall, Event.toast "撤销失败" "error"])
  | Except.ok res =>
    if res.success then
      let r1 := loadCurrentImage api s
      let r2 := updateProgress api r1.1
      (r2.1, Event.call Call.undoCall :: Event.toast "撤销成功" "info" :: (r1.2 ++ r2.2))
    else
      (s, [Event.call Call.undoCall, Event.toast res.message "warning"])

/-- Embeds `handleAnnotation(label)` (`src/unnamed/part_000`, lines 475–501):
button highlight, precondition guard with a warning toast, annotation
request, success toast, fire-and-forget `navigateNext` (result ignored),
then reload and progress refresh; thrown errors from the annotation or the
navigation request fall to the generic failure toast. -/
def handleAnnotate (api : Api) (s : StoreState) (label : Int) : StoreState × List Event :=
  let btnId := if label = 1 then "btn-watermarked" else "btn-no-watermarked"
  let hl := Event.highlight btnId
  match s.currentDataset, s.image.path with
  | some dataset, some path =>
    match api.createAnnot path label dataset with
    | Except.error m =>
      (s, [hl, Event.call (Call.createAnnot path label dataset),
           Event.toast ("操作失败: " ++ m) "error"])
    | Except.ok _ =>
      let labelText := if label = 1 then "有水印" else "无水印"
      let kind := if label = 1 then "error" else "success"
      let tEv := Event.toast ("已标记: " ++ labelText) kind
      match api.navigateNext dataset with
      | Except.error m =>
        (s, [hl, Event.call (Call.createAnnot path label dataset), tEv,
             Event.call (Call.navigateNext dataset),
             Event.toast ("操作失败: " ++ m) "error"])
      | Except.ok _ =>
        let r1 := loadCurrentImage api s
        let r2 := updateProgress api r1.1
        (r2.1, hl :: Event.call (Call.createAnnot path label dataset) :: tEv ::
             Event.call (Call.navigateNext dataset) :: (r1.2 ++ r2.2))
  | _, _ => (s, [hl, Event.toast "请先选择数据类型" "warning"])

/-- Embeds `handleSkip()` (`src/unnamed/part_000`, lines 503–516): button
highlight, then a silent `return` when no dataset or no image path is set
(no toast, no request); otherwise skip request, info toast,
fire-and-forget `navigateNext`, reload. -/
def handleSkip (api : Api) (s : StoreState) : StoreState × List Event :=
  let hl := Event.highlight "btn-skip"
  match s.currentDataset, s.image.path with
  | some dataset, some path =>
    match api.skipImage path dataset with
    | Except.error m =>
      (s, [hl, Event.call (Call.skipCall path dataset),
           Event.toast ("跳过失败: " ++ m) "error"])
    | Except.ok _ =>
      match api.navigateNext dataset with
      | Except.error m =>
        (s, [hl, Event.call (Call.skipCall path dataset),
             Event.toast "已跳过" "info", Event.call (Call.navigateNext dataset),
             Event.toast ("跳过失败: " ++ m) "error"])
      | Except.ok _ =>
        let r1 := loadCurrentImage api s
        (r1.1, hl :: Event.call (Call.skipCall path dataset) ::
             Event.toast "已跳过" "info" :: Event.call (Call.navigateNext dataset) :: r1.2)
  | _, _ => (s, [hl])

/-- Embeds `handleDelete()` (`src/unnamed/part_000`, lines 518–533): silent
`return` when no dataset or no image path; then the `confirm` dialog
(modelled by the `confirmed` argument) must be accepted; on success a
toast, reload and progress refresh. -/
def handleDelete (api : Api) (s : StoreState) (confirmed : Bool) : StoreState × List Event :=
  match s.currentDataset, s.image.path with
  | some dataset, some path =>
    if !confirmed then (s, [])
    else
      match api.deleteImage dataset path with
      | Except.error m =>
        (s, [Event.call (Call.deleteImage dataset path),
             Event.toast ("删除失败: " ++ m) "error"])
      | Except.ok _ =>
        let r1 := loadCurrentImage api s
        let r2 := updateProgress api r1.1
        (r2.1, Event.call (Call.deleteImage dataset path) ::
             Event.toast "图片已删除" "success" :: (r1.2 ++ r2.2))
  | _, _ => (s, [])

/-- Observable output of `ui.updateStats(stats)` (`src/frontend/js/ui.js`, lines 153–171),
reduced to its observable output: the two `current/target` display texts
and the two completion classes. -/
structure UiStats where
  wmText : String
  nwmText : String
  wmComplete : Bool
  nwmComplete : Bool
deriving DecidableEq, Repr

/-- Embeds `ui.updateStats` from `src/frontend/js/ui.js`: display is
`watermarked + "/" + target`, the `complete` class is set exactly when
`target > 0 && current >= target`. -/
def uiUpdateStats (stats : StatsRec) : UiStats :=
  { wmText := toString stats.watermarked ++ "/" ++ toString stats.targetWatermarked
    nwmText := toString stats.noWatermarked ++ "/" ++ toString stats.targetNoWatermarked
    wmComplete := decide (stats.targetWatermarked > 0 ∧ stats.watermarked ≥ stats.targetWatermarked)
    nwmComplete := decide (stats.targetNoWatermarked > 0 ∧ stats.noWatermarked ≥ stats.targetNoWatermarked) }

end AppV2

/-! ## Index-based app (`AppV1`): first document of
`src/unnamed/part_000`. -/

namespace AppV1

/-- The module-level `state` object (`src/unnamed/part_000`, lines 6–12). -/
structure IState where
  currentType : Option String
  currentIndex : Int
  currentImage : Option ImageInfo
  types : List DatasetRec
  isLoading : Bool
deriving DecidableEq, Repr

/-- Observable output of `updateTargetStats`: the target-progress panel
is either hidden (`none`) or shows the two `current/target` texts with
their completion classes. -/
structure StatPanel where
  wmText : String
  wmComplete : Bool
  nwmText : String
  nwmComplete : Bool
deriving DecidableEq, Repr

/-- Embeds `updateTargetStats(typeName)` (`src/unnamed/part_000`, lines 60–95):
the panel is hidden when the type is unknown or the summed targets are 0;
otherwise each counter shows `current/target` and carries the `complete`
class exactly when `target > 0 && current >= target`
(`x || 0` on the `Int` counters is the identity; an absent
`target_count`/`current_count` object is the zero pair). -/
def updateTargetStats (types : List DatasetRec) (typeName : String) : Option StatPanel :=
  match types.find? (fun t => t.name = typeName) with
  | none => none
  | some t =>
    let target := t.target_count.getD { watermarked := 0, non_watermarked := 0 }
    let current := t.current_count.getD { watermarked := 0, non_watermarked := 0 }
    if target.watermarked + target.non_watermarked > 0 then
      some
        { wmText := toString current.watermarked ++ "/" ++ toString target.watermarked
          wmComplete := decide (target.watermarked > 0 ∧ current.watermarked ≥ target.watermarked)
          nwmText := toString current.non_watermarked ++ "/" ++ toString target.non_watermarked
          nwmComplete := decide (target.non_watermarked > 0 ∧ current.non_watermarked ≥ target.non_watermarked) }
    else none

/-- Observable events of the index-based app: network requests, toasts
and the direct `ui` effects (`showLoading`, `showImage`, `hideImage`,
status badge, file path, progress display, counter texts, list renders
and the target-stats panel). -/
inductive IEvent where
  | call (c : Call)
  | toast (message : String) (kind : String)
  | showLoading
  | showImage (base64 : String)
  | hideImage
  | badge (status : String)
  | filePath (p : Option String)
  | progressUI (current : Int) (total : Int)
  | curIdxText (n : Int)
  | totalText (n : Int)
  | renderTypes (types : List DatasetRec) (current : Option String)
  | statsPanel (p : Option StatPanel)
deriving DecidableEq, Repr

/-- Holds (`true`) iff the trace contains a toast. -/
def hasToastI (es : List IEvent) : Bool :=
  es.any fun e => match e with | IEvent.toast _ _ => true | _ => false

/-- Holds (`true`) iff the trace contains a network request. -/
def hasCallI (es : List IEvent) : Bool :=
  es.any fun e => match e with | IEvent.call _ => true | _ => false

/-- Embeds `loadCurrentImage()` (`src/unnamed/part_000`, lines 179–217): hide the
image when no type is selected; no-op when `isLoading`; otherwise set the
flag, fetch metadata (committing it to `state.currentImage` /
`state.currentIndex` at once), fetch progress, fetch the payload, update
the UI; any thrown error yields the failure toast and `ui.hideImage()`;
the flag is cleared in `finally`. -/
def loadCurrentImage (api : Api) (s : IState) : IState × List IEvent :=
  match s.currentType with
  | none => (s, [IEvent.hideImage])
  | some t =>
    if s.isLoading then (s, [])
    else
      let s1 := { s with isLoading := true }
      match api.getCurrentImage t with
      | Except.error m =>
        ({ s1 with isLoading := false },
         [IEvent.showLoading, IEvent.call (Call.getCurrentImage t),
          IEvent.toast ("加载图片失败: " ++ m) "error", IEvent.hideImage])
      | Except.ok info =>
        let s2 := { s1 with currentImage := some info, currentIndex := info.index }
        match api.getProgress t with
        | Except.error m =>
          ({ s2 with isLoading := false },
           [IEvent.showLoading, IEvent.call (Call.getCurrentImage t),
            IEvent.call (Call.getProgress t),
            IEvent.toast ("加载图片失败: " ++ m) "error", IEvent.hideImage])
        | Except.ok prog =>
          match api.getImageBase64 t info.index with
          | Except.error m =>
            ({ s2 with isLoading := false },
             [IEvent.showLoading, IEvent.call (Call.getCurrentImage t),
              IEvent.call (Call.getProgress t),
              IEvent.progressUI prog.annotated_count prog.total_images,
              IEvent.call (Call.getImageBase64 t info.index),
              IEvent.toast ("加载图片失败: " ++ m) "error", IEvent.hideImage])
          | Except.ok b64 =>
            ({ s2 with isLoading := false },
             [IEvent.showLoading, IEvent.call (Call.getCurrentImage t),
              IEvent.call (Call.getProgress t),
              IEvent.progressUI prog.annotated_count prog.total_images,
              IEvent.call (Call.getImageBase64 t info.index),
              IEvent.showImage b64, IEvent.badge info.status,
              IEvent.filePath (some info.path),
              IEvent.curIdxText (info.index + 1), IEvent.totalText prog.total_images])

/-- Embeds `loadImageByIndex(index)` (`src/unnamed/part_000`, lines 219–246):
no-op when no type or already loading; otherwise set the flag, fetch the
metadata at `index` (committing it immediately), fetch the payload at
`index`, update the UI, fetch progress; a thrown error yields only the
failure toast (the image is NOT hidden here); the flag is cleared in
`finally`. -/
def loadImageByIndex (api : Api) (s : IState) (index : Int) : IState × List IEvent :=
  match s.currentType with
  | none => (s, [])
  | some t =>
    if s.isLoading then (s, [])
    else
      let s1 := { s with isLoading := true }
      match api.getImageByIndex t index with
      | Except.error m =>
        ({ s1 with isLoading := false },
         [IEvent.showLoading, IEvent.call (Call.getImageByIndex t index),
          IEvent.toast ("加载失败: " ++ m) "error"])
      | Except.ok info =>
        let s2 := { s1 with currentImage := some info, currentIndex := info.index }
        match api.getImageBase64 t index with
        | Except.error m =>
          ({ s2 with isLoading := false },
           [IEvent.showLoading, IEvent.call (Call.getImageByIndex t index),
            IEvent.call (Call.getImageBase64 t index),
            IEvent.toast ("加载失败: " ++ m) "error"])
        | Except.ok b64 =>
          match api.getProgress t with
          | Except.error m =>
            ({ s2 with isLoading := false },
             [IEvent.showLoading, IEvent.call (Call.getImageByIndex t index),
              IEvent.call (Call.getImageBase64 t index),
              IEvent.showImage b64, IEvent.badge info.status,
              IEvent.filePath (some info.path),
              IEvent.call (Call.getProgress t),
              IEvent.toast ("加载失败: " ++ m) "error"])
          | Except.ok prog =>
            ({ s2 with isLoading := false },
             [IEvent.showLoading, IEvent.call (Call.getImageByIndex t index),
              IEvent.call (Call.getImageBase64 t index),
              IEvent.showImage b64, IEvent.badge info.status,
              IEvent.filePath (some info.path),
              IEvent.call (Call.getProgress t),
              IEvent.progressUI prog.annotated_count prog.total_images,
              IEvent.curIdxText (index + 1)])

/-- Embeds `navigateNext()` (`src/unnamed/part_000`, lines 297–310): guarded only
on `currentType`; on `result.success === false` an informational boundary
toast and nothing else; otherwise `loadImageByIndex(result.index)`; a
thrown request error yields the navigation-failure toast. -/
def navigateNext (api : Api) (s : IState) : IState × List IEvent :=
  match s.currentType with
  | none => (s, [])
  | some t =>
    match api.navigateNext t with
    | Except.error m =>
      (s, [IEvent.call (Call.navigateNext t), IEvent.toast ("导航失败: " ++ m) "error"])
    | Except.ok r =>
      if r.success = false then
        (s, [IEvent.call (Call.navigateNext t), IEvent.toast "已经是最后一张" "info"])
      else
        let r1 := loadImageByIndex api s r.index
        (r1.1, IEvent.call (Call.navigateNext t) :: r1.2)

/-- Embeds `navigatePrev()` (`src/unnamed/part_000`, lines 312–325): symmetric
to `navigateNext` with the first-image boundary toast. -/
def navigatePrev (api : Api) (s : IState) : IState × List IEvent :=
  match s.currentType with
  | none => (s, [])
  | some t =>
    match api.navigatePrev t with
    | Except.error m =>
      (s, [IEvent.call (Call.navigatePrev t), IEvent.toast ("导航失败: " ++ m) "error"])
    | Except.ok r =>
      if r.success = false then
        (s, [IEvent.call (Call.navigatePrev t), IEvent.toast "已经是第一张" "info"])
      else
        let r1 := loadImageByIndex api s r.index
        (r1.1, IEvent.call (Call.navigatePrev t) :: r1.2)

/-- Embeds `loadTypes(skipScan)` (`src/unnamed/part_000`, lines 34–42): fetch the
type list into `state.types` and re-render; a thrown error yields the
failure toast. -/
def loadTypes (api : Api) (s : IState) (skipScan : Bool) : IState × List IEvent :=
  match api.getTypes skipScan with
  | Except.error m =>
    (s, [IEvent.call (Call.getTypes skipScan),
         IEvent.toast ("加载数据类型失败: " ++ m) "error"])
  | Except.ok ts =>
    let s1 := { s with types := ts }
    (s1, [IEvent.call (Call.getTypes skipScan),
          IEvent.renderTypes ts s.currentType, IEvent.renderTypes ts s.currentType])

/-- Embeds `selectType(typeName)` (`src/unnamed/part_000`, lines 44–57): no-op
when already selected; otherwise set `currentType`, reset `currentIndex`
to 0, re-render the lists, refresh the target-stats panel and load the
current image. -/
def selectType (api : Api) (s : IState) (typeName : String) : IState × List IEvent :=
  if s.currentType = some typeName then (s, [])
  else
    let s1 := { s with currentType := some typeName, currentIndex := 0 }
    let r2 := loadCurrentImage api s1
    (r2.1, IEvent.renderTypes s1.types (some typeName) ::
         IEvent.renderTypes s1.types (some typeName) ::
         IEvent.statsPanel (updateTargetStats s1.types typeName) :: r2.2)

/-- Embeds `annotate(label)` (`src/unnamed/part_000`, lines 250–275):
precondition guard with a warning toast and no request; on success of the
annotation request a success toast and an optimistic badge update, then
`navigateNext()` (which traps its own errors) and `loadTypes()` (ditto);
only a thrown annotation request error reaches the failure toast. -/
def annotate (api : Api) (s : IState) (label : Int) : IState × List IEvent :=
  match s.currentType, s.currentImage with
  | some t, some img =>
    match api.createAnnot img.path label t with
    | Except.error m =>
      (s, [IEvent.call (Call.createAnnot img.path label t),
           IEvent.toast ("标注失败: " ++ m) "error"])
    | Except.ok _ =>
      let tEv := IEvent.toast (if label = 1 then "已标记为有水印" else "已标记为无水印") "success"
      let bEv := IEvent.badge (if label = 1 then "watermarked" else "no_watermark")
      let r1 := navigateNext api s
      let r2 := loadTypes api r1.1 false
      (r2.1, IEvent.call (Call.createAnnot img.path label t) :: tEv :: bEv :: (r1.2 ++ r2.2))
  | _, _ => (s, [IEvent.toast "请先选择数据类型和图片" "warning"])

/-- Embeds `skipImage()` (`src/unnamed/part_000`, lines 277–293): precondition
guard with the same warning toast; on success an info toast, the
`skipped` badge, then `navigateNext()`. -/
def skipImage (api : Api) (s : IState) : IState × List IEvent :=
  match s.currentType, s.currentImage with
  | some t, some img =>
    match api.skipImage img.path t with
    | Except.error m =>
      (s, [IEvent.call (Call.skipCall img.path t),
           IEvent.toast ("操作失败: " ++ m) "error"])
    | Except.ok _ =>
      let r1 := navigateNext api s
      (r1.1, IEvent.call (Call.skipCall img.path t) :: IEvent.toast "已跳过" "info" ::
           IEvent.badge "skipped" :: r1.2)
  | _, _ => (s, [IEvent.toast "请先选择数据类型和图片" "warning"])

/-- Embeds `undoAction()` (`src/unnamed/part_000`, lines 329–342): on
`result.success` an info toast, then reload the image and the type list;
otherwise toast the server-provided `result.message` as a warning and
leave the state untouched; a thrown request error yields the failure
toast. -/
def undoAction (api : Api) (s : IState) : IState × List IEvent :=
  match api.undo with
  | Except.error m =>
    (s, [IEvent.call Call.undoCall, IEvent.toast ("撤销失败: " ++ m) "error"])
  | Except.ok r =>
    if r.success then
      let r1 := loadCurrentImage api s
      let r2 := loadTypes api r1.1 false
      (r2.1, IEvent.call Call.undoCall :: IEvent.toast "已撤销" "info" :: (r1.2 ++ r2.2))
    else
      (s, [IEvent.call Call.undoCall, IEvent.toast r.message "warning"])

end AppV1

/-! ## Concrete fixtures used by witnesses and counterexamples. -/

/-- An API oracle in which every request fails (network unreachable). -/
def apiAllFail : Api :=
  { getCurrentImage := fun _ => Except.error "network"
    getImageByIndex := fun _ _ => Except.error "network"
    getImageBase64 := fun _ _ => Except.error "network"
    getProgress := fun _ => Except.error "network"
    navigateNext := fun _ => Except.error "network"
    navigatePrev := fun _ => Except.error "network"
    createAnnot := fun _ _ _ => Except.error "network"
    skipImage := fun _ _ => Except.error "network"
    deleteImage := fun _ _ => Except.error "network"
    undo := Except.error "network"
    getTypes := fun _ => Except.error "network" }

/-- Oracle `apiAllFail` with `navigateNext` resolving to `{success: true, index: 5}`. -/
def apiNavOk : Api :=
  { apiAllFail with navigateNext := fun _ => Except.ok { success := true, index := 5 } }

/-- Oracle `apiAllFail` with the metadata fetch resolving but the payload fetch
still failing. -/
def apiMetaOnly : Api :=
  { apiAllFail with
    getCurrentImage := fun _ => Except.ok { path := "/a/2.jpg", index := 3, status := "pending" } }

/-- Oracle `apiAllFail` with `navigateNext` reporting the boundary
(`{success: false}`). -/
def apiBoundary : Api :=
  { apiAllFail with navigateNext := fun _ => Except.ok { success := false, index := 0 } }

/-- Oracle `apiAllFail` with `undo` resolving to a failed application
(`{success: false, message: "nothing to undo"}`). -/
def apiUndoEmpty : Api :=
  { apiAllFail with undo := Except.ok { success := false, message := "nothing to undo" } }

/-- A store state currently displaying image `/a/1.jpg` of dataset `A`. -/
def sA : AppV2.StoreState :=
  { currentDataset := some "A"
    datasets := []
    image := { data := some "OLD", path := some "/a/1.jpg", index := 2, total := 9, status := "pending" }
    stats := { watermarked := 1, noWatermarked := 2, targetWatermarked := 3, targetNoWatermarked := 4 }
    isLoading := false }

/-- State `sA` with no image path set. -/
def sNoPath : AppV2.StoreState :=
  { sA with image := { sA.image with path := none } }

/-- An index-flow state on dataset `A` while a load is in flight. -/
def iLoading : AppV1.IState :=
  { currentType := some "A"
    currentIndex := 2
    currentImage := some { path := "/a/1.jpg", index := 2, status := "pending" }
    types := []
    isLoading := true }

/-- State `iLoading` with the in-flight flag cleared. -/
def iIdle : AppV1.IState := { iLoading with isLoading := false }

/-- State `iIdle` with no image selected. -/
def iNoImage : AppV1.IState := { iIdle with currentImage := none }

/-- The dataset record of spec scenario "产品图":
`target_count = {watermarked: 10, non_watermarked: 10}`,
`current_count = {watermarked: 10, non_watermarked: 3}`. -/
def prodDs : DatasetRec :=
  { name := "产品图"
    target_count := some { watermarked := 10, non_watermarked := 10 }
    current_count := some { watermarked := 10, non_watermarked := 3 }
    priority := 1 }

/-! ## Helper lemmas. -/

namespace AppV2

/-- Frame fact: `loadCurrentImage` never touches `currentDataset`. -/
theorem loadCurrentImage_fst_currentDataset (api : Api) (s : StoreState) :
    (loadCurrentImage api s).1.currentDataset = s.currentDataset := by
  unfold loadCurrentImage
  cases hd : s.currentDataset with
  | none => simp [hd]
  | some d =>
    cases hg : api.getCurrentImage d with
    | error m => simp [hd, hg, setLoading, updateImage, setState, clearPatch]
    | ok info =>
      cases hb : api.getImageBase64 d info.index with
      | error m => simp [hd, hg, hb, setLoading, updateImage, setState, clearPatch]
      | ok b64 => simp [hd, hg, hb, setLoading, updateImage, setState]

/-- Frame fact: `updateProgress` never touches `currentDataset`. -/
theorem updateProgress_fst_currentDataset (api : Api) (s : StoreState) :
    (updateProgress api s).1.currentDataset = s.currentDataset := by
  unfold updateProgress
  cases hd : s.currentDataset with
  | none => simp [hd]
  | some d =>
    cases hp : api.getProgress d with
    | error m => simp [hd, hp]
    | ok p => simp [hd, hp, updateStats, updateImage, setState]

/-- After `selectDataset name`, `currentDataset` is `name`. -/
theorem selectDataset_fst_currentDataset (api : Api) (s : StoreState) (name : String) :
    (selectDataset api s name).1.currentDataset = some name := by
  unfold selectDataset
  by_cases h : s.currentDataset = some name
  · simp [h]
  · rw [if_neg h]
    simp only [updateProgress_fst_currentDataset, loadCurrentImage_fst_currentDataset]
    cases hf : (updateDataset s name).datasets.find? (fun d => d.name = name) with
    | none => simp [hf, updateDataset, setState]
    | some d =>
      cases ht : d.target_count with
      | none => simp [hf, ht, updateDataset, setState]
      | some tc => simp [hf, ht, updateStats, updateDataset, setState]

end AppV2

/-! ## Claim theorems. -/

/-- C7: for every pair of integer counters, the completion flag computed
by `ui.updateStats` (and by `updateTargetStats`) equals
`target > 0 && current >= target`, so a counter with target 0 is never
marked complete; and on dataset 产品图 with targets `{10, 10}` and
currents `{10, 3}` the watermarked counter is complete, the
non-watermarked one is not, and the displays are `10/10` and `3/10`. -/
theorem c7_completion_flag (c nc t nt : Int) :
    ((AppV2.uiUpdateStats
        { watermarked := c, noWatermarked := nc,
          targetWatermarked := t, targetNoWatermarked := nt }).wmComplete = true
      ↔ (t > 0 ∧ c ≥ t)) ∧
    ((AppV2.uiUpdateStats
        { watermarked := c, noWatermarked := nc,
          targetWatermarked := t, targetNoWatermarked := nt }).nwmComplete = true
      ↔ (nt > 0 ∧ nc ≥ nt)) ∧
    (t = 0 →
      (AppV2.uiUpdateStats
        { watermarked := c, noWatermarked := nc,
          targetWatermarked := t, targetNoWatermarked := nt }).wmComplete = false) ∧
    AppV1.updateTargetStats [prodDs] "产品图" =
      some { wmText := "10/10", wmComplete := true, nwmText := "3/10", nwmComplete := false } := by
  refine ⟨?_, ?_, ?_, ?_⟩
  · simp [AppV2.uiUpdateStats]
  · simp [AppV2.uiUpdateStats]
  · intro ht
    simp [AppV2.uiUpdateStats, ht]
  · rfl

/-- Witness for C7: the scenario instance, extracted by applying
`c7_completion_flag` at the scenario numbers. -/
theorem c7_witness :
    (AppV2.uiUpdateStats
      { watermarked := 10, noWatermarked := 3,
        targetWatermarked := 10, targetNoWatermarked := 10 }).wmComplete = true ∧
    (AppV2.uiUpdateStats
      { watermarked := 10, noWatermarked := 3,
        targetWatermarked := 10, targetNoWatermarked := 10 }).nwmComplete = false := by
  refine ⟨(c7_completion_flag 10 3 10 10).1.mpr (by decide), ?_⟩
  have h := (c7_completion_flag 10 3 10 10).2.1
  by_contra hb
  have : (10:Int) > 0 ∧ (3:Int) ≥ 10 := h.mp (by revert hb; decide)
  exact absurd this.2 (by decide)

/-- C10: each targeted store update mutates only its named portion of the
state and frames the rest: `updateImage` shallow-merges the given fields
into the image sub-record (fields present in the patch are set, absent
ones preserved) and leaves `currentDataset`, `datasets`, `stats` and
`isLoading` unchanged; `updateStats` changes only `stats`, `setLoading`
only `isLoading`, `updateDataset` only `currentDataset`; each builds a
fresh state value (the embedding is pure, mirroring the spread-copy in
`setState`). -/
theorem c10_store_frame (s : AppV2.StoreState) (ip : AppV2.ImagePatch)
    (sp : AppV2.StatsPatch) (b : Bool) (name : String) :
    ((AppV2.updateImage s ip).currentDataset = s.currentDataset ∧
     (AppV2.updateImage s ip).datasets = s.datasets ∧
     (AppV2.updateImage s ip).stats = s.stats ∧
     (AppV2.updateImage s ip).isLoading = s.isLoading) ∧
    ((∀ v, ip.data = some v → (AppV2.updateImage s ip).image.data = v) ∧
     (ip.data = none → (AppV2.updateImage s ip).image.data = s.image.data) ∧
     (∀ v, ip.path = some v → (AppV2.updateImage s ip).image.path = v) ∧
     (ip.path = none → (AppV2.updateImage s ip).image.path = s.image.path) ∧
     (∀ v, ip.index = some v → (AppV2.updateImage s ip).image.index = v) ∧
     (ip.index = none → (AppV2.updateImage s ip).image.index = s.image.index) ∧
     (∀ v, ip.total = some v → (AppV2.updateImage s ip).image.total = v) ∧
     (ip.total = none → (AppV2.updateImage s ip).image.total = s.image.total) ∧
     (∀ v, ip.status = some v → (AppV2.updateImage s ip).image.status = v) ∧
     (ip.status = none → (AppV2.updateImage s ip).image.status = s.image.status)) ∧
    ((AppV2.updateStats s sp).currentDataset = s.currentDataset ∧
     (AppV2.updateStats s sp).datasets = s.datasets ∧
     (AppV2.updateStats s sp).image = s.image ∧
     (AppV2.updateStats s sp).isLoading = s.isLoading) ∧
    ((AppV2.updateStats s sp).stats = AppV2.mergeStats s.stats sp) ∧
    (AppV2.setLoading s b = { s with isLoading := b }) ∧
    (AppV2.updateDataset s name = { s with currentDataset := some name }) := by
  refine ⟨⟨rfl, rfl, rfl, rfl⟩, ⟨?_, ?_, ?_, ?_, ?_, ?_, ?_, ?_, ?_, ?_⟩,
    ⟨rfl, rfl, rfl, rfl⟩, rfl, rfl, rfl⟩ <;>
    first
      | (intro v h
         simp [AppV2.updateImage, AppV2.setState, AppV2.mergeImage, h])
      | (intro h
         simp [AppV2.updateImage, AppV2.setState, AppV2.mergeImage, h])

/-- Witness for C10: a concrete patch carrying only `data`, applied to
`sA`, sets `data` and preserves the other image fields and the rest of
the state, by `c10_store_frame` itself. -/
theorem c10_witness :
    (AppV2.updateImage sA
        { data := some (some "NEW"), path := none, index := none,
          total := none, status := none }).image.data = some "NEW" ∧
    (AppV2.updateImage sA
        { data := some (some "NEW"), path := none, index := none,
          total := none, status := none }).image.path = sA.image.path ∧
    (AppV2.updateImage sA
        { data := some (some "NEW"), path := none, index := none,
          total := none, status := none }).stats = sA.stats := by
  have h := c10_store_frame sA
    { data := some (some "NEW"), path := none, index := none,
      total := none, status := none }
    { watermarked := none, noWatermarked := none,
      targetWatermarked := none, targetNoWatermarked := none } false "A"
  exact ⟨h.2.1.1 (some "NEW") rfl, h.2.1.2.2.2.1 rfl, h.1.2.2.1⟩

/-- C1, counterexample: from the state `sA` (dataset `A` current, its
image `/a/1.jpg` held), `selectDataset "B"` delivers as its very first
subscriber notification a state carrying the new dataset name `B`
together with the stale image of `A` — `Store.updateDataset` notifies
before anything clears the image, so a notification does observe the new
dataset name with the image of the old dataset. -/
theorem c1_counterexample :
    sA.currentDataset = some "A" ∧
    sA.image.path = some "/a/1.jpg" ∧
    AppV2.firstNotify (AppV2.selectDataset apiAllFail sA "B").2 =
      some { sA with currentDataset := some "B" } ∧
    ({ sA with currentDataset := some "B" } : AppV2.StoreState).image.path =
      some "/a/1.jpg" :=
  ⟨rfl, rfl, rfl, rfl⟩

/-- C1 (amended): for every state whose current dataset differs from `B`,
`selectDataset B` sets `currentDataset = B` (also in the final state) but
does NOT clear `currentImage` before notifying: the first subscriber
notification is exactly the pre-state with only `currentDataset` replaced
by `B`, its image record unchanged, so the stale image of the old dataset
is observable together with the new dataset name until `loadCurrent`
later overwrites it. -/
theorem c1_selectDataset_notifies_stale (api : Api) (s : AppV2.StoreState)
    (name : String) (h : s.currentDataset ≠ some name) :
    AppV2.firstNotify (AppV2.selectDataset api s name).2 =
      some { s with currentDataset := some name } ∧
    ({ s with currentDataset := some name } : AppV2.StoreState).image = s.image ∧
    (AppV2.selectDataset api s name).1.currentDataset = some name := by
  refine ⟨?_, rfl, AppV2.selectDataset_fst_currentDataset api s name⟩
  unfold AppV2.selectDataset
  rw [if_neg h]
  simp [AppV2.firstNotify, AppV2.updateDataset, AppV2.setState]

/-- Witness for the amended theorem of C1 at `sA` and dataset `B`. -/
theorem c1_witness :
    AppV2.firstNotify (AppV2.selectDataset apiAllFail sA "B").2 =
      some { sA with currentDataset := some "B" } ∧
    (AppV2.selectDataset apiAllFail sA "B").1.currentDataset = some "B" := by
  have h := c1_selectDataset_notifies_stale apiAllFail sA "B" (by decide)
  exact ⟨h.1, h.2.2⟩

/-- C2, counterexample: in the index-based app, with dataset `A` selected
and `isLoading = true`, `navigateNext` is not a no-op: it still issues the
`navigate/next` network request (the follow-up image load is then
suppressed by the guard of `loadImageByIndex`). -/
theorem c2_counterexample :
    iLoading.isLoading = true ∧
    AppV1.navigateNext apiNavOk iLoading =
      (iLoading, [AppV1.IEvent.call (Call.navigateNext "A")]) ∧
    AppV1.hasCallI (AppV1.navigateNext apiNavOk iLoading).2 = true :=
  ⟨rfl, rfl, rfl⟩

/-- C2 (amended): `loadCurrent` and `gotoIndex` (`loadCurrentImage` /
`loadImageByIndex`) are full no-ops under the guard (unset dataset or
`isLoading`, the former case of `loadCurrent` only hiding the image);
`next`/`prev` check only that a dataset is selected: when `isLoading` is
true they leave the state (including the loading flag) unchanged but
still issue the navigation request; the store-based `loadCurrent` guards
only on the dataset and ignores `isLoading` entirely, while its
`handleNavigate` is a no-op exactly when the dataset is unset. -/
theorem c2_navigation_guards (api : Api) (s : AppV1.IState) (i : Int)
    (s2 : AppV2.StoreState) (dir : String) (h2 : s2.currentDataset = none) :
    (s.currentType = none ∨ s.isLoading = true →
      AppV1.loadImageByIndex api s i = (s, [])) ∧
    (s.currentType = none →
      AppV1.loadCurrentImage api s = (s, [AppV1.IEvent.hideImage]) ∧
      AppV1.navigateNext api s = (s, []) ∧
      AppV1.navigatePrev api s = (s, [])) ∧
    (s.isLoading = true → s.currentType ≠ none →
      AppV1.loadCurrentImage api s = (s, [])) ∧
    (s.isLoading = true →
      (AppV1.navigateNext api s).1 = s ∧ (AppV1.navigatePrev api s).1 = s) ∧
    (AppV2.loadCurrentImage api s2 = (s2, []) ∧
     AppV2.handleNavigate api s2 dir = (s2, [])) := by
  refine ⟨?_, ?_, ?_, ?_, ?_⟩
  · rintro (h | h)
    · unfold AppV1.loadImageByIndex
      simp [h]
    · unfold AppV1.loadImageByIndex
      cases ht : s.currentType with
      | none => simp
      | some t => simp [h]
  · intro h
    refine ⟨?_, ?_, ?_⟩ <;>
      first
        | (unfold AppV1.loadCurrentImage; simp [h])
        | (unfold AppV1.navigateNext; simp [h])
        | (unfold AppV1.navigatePrev; simp [h])
  · intro h ht
    unfold AppV1.loadCurrentImage
    cases hc : s.currentType with
    | none => exact absurd hc ht
    | some t => simp [h]
  · intro h
    constructor
    · unfold AppV1.navigateNext
      cases hc : s.currentType with
      | none => rfl
      | some t =>
        cases hn : api.navigateNext t with
        | error m => simp [hn]
        | ok r =>
          cases hs : r.success with
          | false => simp [hn, hs]
          | true =>
            unfold AppV1.loadImageByIndex
            simp only [hn, hs, h]
            cases s.currentType <;> simp [h]
    · unfold AppV1.navigatePrev
      cases hc : s.currentType with
      | none => rfl
      | some t =>
        cases hn : api.navigatePrev t with
        | error m => simp [hn]
        | ok r =>
          cases hs : r.success with
          | false => simp [hn, hs]
          | true =>
            unfold AppV1.loadImageByIndex
            simp only [hn, hs, h]
            cases s.currentType <;> simp [h]
  · constructor
    · unfold AppV2.loadCurrentImage
      simp [h2]
    · unfold AppV2.handleNavigate
      simp [h2]

/-- Witness for the amended theorem of C2: concrete no-op instances at
`iLoading` (guarded index loads) and an unset store dataset. -/
theorem c2_witness :
    AppV1.loadImageByIndex apiAllFail iLoading 0 = (iLoading, []) ∧
    AppV1.loadCurrentImage apiAllFail iLoading = (iLoading, []) ∧
    (AppV1.navigateNext apiAllFail iLoading).1 = iLoading ∧
    AppV2.loadCurrentImage apiAllFail AppV2.initialState =
      (AppV2.initialState, []) := by
  have h := c2_navigation_guards apiAllFail iLoading 0 AppV2.initialState "next" rfl
  exact ⟨h.1 (Or.inr rfl), h.2.2.1 rfl (by decide), (h.2.2.2.1 rfl).1, h.2.2.2.2.1⟩

/-- C3, counterexample: in the store-based `loadCurrentImage`, with a
prior valid image displayed (`sA` holds `/a/1.jpg` with pixel data) and
the metadata fetch succeeding but the payload fetch failing, the stored
image record is NOT retained: both `data` and `path` are cleared to null
(and no error toast is surfaced), contradicting "the previously displayed
image is retained unchanged and an error is surfaced". -/
theorem c3_counterexample :
    sA.image.data = some "OLD" ∧
    sA.image.path = some "/a/1.jpg" ∧
    apiMetaOnly.getCurrentImage "A" =
      Except.ok { path := "/a/2.jpg", index := 3, status := "pending" } ∧
    (AppV2.loadCurrentImage apiMetaOnly sA).1.image.data = none ∧
    (AppV2.loadCurrentImage apiMetaOnly sA).1.image.path = none ∧
    AppV2.hasToast (AppV2.loadCurrentImage apiMetaOnly sA).2 = false :=
  ⟨rfl, rfl, rfl, rfl, rfl, rfl⟩

/-- C3 (amended): in the store-based `loadCurrent`, a failure of either
round-trip makes the catch branch clear the stored `data` and
`path` to null — regardless of any prior valid image — while retaining
`index`/`total`/`status`, and the failure is swallowed silently (logged,
no toast); only when both round-trips succeed is the record updated, and
then consistently, with `data`, `path`, `index` and `status` all taken
from the same response pair (never a new path with old pixel data). -/
theorem c3_loadCurrent_failure_clears (api : Api) (s : AppV2.StoreState)
    (d : String) (hd : s.currentDataset = some d) :
    ((∃ m, api.getCurrentImage d = Except.error m) ∨
     (∃ info m, api.getCurrentImage d = Except.ok info ∧
        api.getImageBase64 d info.index = Except.error m) →
      (AppV2.loadCurrentImage api s).1.image =
        { s.image with data := none, path := none } ∧
      AppV2.hasToast (AppV2.loadCurrentImage api s).2 = false) ∧
    (∀ info b64, api.getCurrentImage d = Except.ok info →
      api.getImageBase64 d info.index = Except.ok b64 →
      (AppV2.loadCurrentImage api s).1.image =
        { data := some b64, path := some info.path, index := info.index,
          total := s.image.total, status := info.status }) := by
  constructor
  · rintro (⟨m, hm⟩ | ⟨info, m, hi, hm⟩)
    · unfold AppV2.loadCurrentImage
      simp [hd, hm, AppV2.updateImage, AppV2.setLoading, AppV2.setState,
        AppV2.mergeImage, AppV2.clearPatch, AppV2.hasToast]
    · unfold AppV2.loadCurrentImage
      simp [hd, hi, hm, AppV2.updateImage, AppV2.setLoading, AppV2.setState,
        AppV2.mergeImage, AppV2.clearPatch, AppV2.hasToast]
  · intro info b64 hi hb
    unfold AppV2.loadCurrentImage
    simp [hd, hi, hb, AppV2.updateImage, AppV2.setLoading, AppV2.setState,
      AppV2.mergeImage]

/-- Witness for the amended theorem of C3 at `sA` with the payload fetch
failing: the record is cleared. -/
theorem c3_witness :
    (AppV2.loadCurrentImage apiMetaOnly sA).1.image =
      { sA.image with data := none, path := none } := by
  have h := c3_loadCurrent_failure_clears apiMetaOnly sA "A" rfl
  exact (h.1 (Or.inr ⟨{ path := "/a/2.jpg", index := 3, status := "pending" },
    "network", rfl, rfl⟩)).1

/-- C4: every image-loading operation clears `isLoading` on every exit
path — thrown/rejected fetches included — so starting from a quiescent
state (`isLoading = false`, the only state in which the single-threaded
client begins an operation) each load ends with `isLoading = false`; and
the first action of the store-based load when a dataset is set is the
`setLoading(true)` notification, before any request is issued. -/
theorem c4_isLoading_cleared (api : Api) (s2 : AppV2.StoreState)
    (s : AppV1.IState) (i : Int)
    (h2 : s2.isLoading = false) (h : s.isLoading = false) :
    (AppV2.loadCurrentImage api s2).1.isLoading = false ∧
    (AppV1.loadCurrentImage api s).1.isLoading = false ∧
    (AppV1.loadImageByIndex api s i).1.isLoading = false ∧
    (∀ d, s2.currentDataset = some d →
      (AppV2.loadCurrentImage api s2).2.head? =
        some (AppV2.Event.notify (AppV2.setLoading s2 true))) := by
  refine ⟨?_, ?_, ?_, ?_⟩
  · unfold AppV2.loadCurrentImage
    cases hd : s2.currentDataset with
    | none => simpa using h2
    | some d =>
      cases hg : api.getCurrentImage d with
      | error m => simp [hg, AppV2.setLoading, AppV2.updateImage, AppV2.setState]
      | ok info =>
        cases hb : api.getImageBase64 d info.index with
        | error m =>
          simp [hg, hb, AppV2.setLoading, AppV2.updateImage, AppV2.setState]
        | ok b64 =>
          simp [hg, hb, AppV2.setLoading, AppV2.updateImage, AppV2.setState]
  · unfold AppV1.loadCurrentImage
    cases hc : s.currentType with
    | none => simpa using h
    | some t =>
      cases hg : api.getCurrentImage t with
      | error m => simp [h, hg]
      | ok info =>
        cases hp : api.getProgress t with
        | error m => simp [h, hg, hp]
        | ok prog =>
          cases hb : api.getImageBase64 t info.index with
          | error m => simp [h, hg, hp, hb]
          | ok b64 => simp [h, hg, hp, hb]
  · unfold AppV1.loadImageByIndex
    cases hc : s.currentType with
    | none => simpa using h
    | some t =>
      cases hg : api.getImageByIndex t i with
      | error m => simp [h, hg]
      | ok info =>
        cases hb : api.getImageBase64 t i with
        | error m => simp [h, hg, hb]
        | ok b64 =>
          cases hp : api.getProgress t with
          | error m => simp [h, hg, hb, hp]
          | ok prog => simp [h, hg, hb, hp]
  · intro d hd
    unfold AppV2.loadCurrentImage
    cases hg : api.getCurrentImage d with
    | error m => simp [hd, hg]
    | ok info =>
      cases hb : api.getImageBase64 d info.index with
      | error m => simp [hd, hg, hb]
      | ok b64 => simp [hd, hg, hb]

/-- Witness for C4 at `sA` / `iIdle` (quiescent states) under a failing
network: every load still ends with `isLoading = false`. -/
theorem c4_witness :
    (AppV2.loadCurrentImage apiAllFail sA).1.isLoading = false ∧
    (AppV1.loadCurrentImage apiAllFail iIdle).1.isLoading = false ∧
    (AppV1.loadImageByIndex apiAllFail iIdle 0).1.isLoading = false := by
  have h := c4_isLoading_cleared apiAllFail sA iIdle 0 rfl rfl
  exact ⟨h.1, h.2.1, h.2.2.1⟩

/-- C5, counterexample: the store-based `handleNavigate` ignores the
boundary response: from `sA` (image `/a/1.jpg` displayed), a `next` whose
server response is `{success: false}` (no further image) produces no
boundary report at all (no toast in the trace) and does NOT leave
`currentImage` unchanged — the unconditional reload runs and, failing
here, clears the image record. -/
theorem c5_counterexample :
    apiBoundary.navigateNext "A" = Except.ok { success := false, index := 0 } ∧
    sA.image.path = some "/a/1.jpg" ∧
    AppV2.hasToast (AppV2.handleNavigate apiBoundary sA "next").2 = false ∧
    (AppV2.handleNavigate apiBoundary sA "next").1.image.path = none :=
  ⟨rfl, rfl, rfl, rfl⟩

/-- C5 (amended): the index-based `navigateNext`/`navigatePrev` honour the
claim: on a server response with `success: false` they emit exactly the
informational boundary toast (kind `info`, not `error`) and leave the
whole session state unchanged; the store-based `handleNavigate`, by
contrast, never inspects the flag — it always reloads the current image,
so on a boundary it reports nothing and the state can change. -/
theorem c5_boundary_leaves_state (api : Api) (s : AppV1.IState) (t : String)
    (r : NavResult) (ht : s.currentType = some t) (hr : r.success = false) :
    (api.navigateNext t = Except.ok r →
      AppV1.navigateNext api s =
        (s, [AppV1.IEvent.call (Call.navigateNext t),
             AppV1.IEvent.toast "已经是最后一张" "info"])) ∧
    (api.navigatePrev t = Except.ok r →
      AppV1.navigatePrev api s =
        (s, [AppV1.IEvent.call (Call.navigatePrev t),
             AppV1.IEvent.toast "已经是第一张" "info"])) := by
  constructor
  · intro hn
    unfold AppV1.navigateNext
    simp [ht, hn, hr]
  · intro hn
    unfold AppV1.navigatePrev
    simp [ht, hn, hr]

/-- Witness for the amended theorem of C5: a boundary `next` on `iIdle` leaves
the state untouched and reports the boundary toast. -/
theorem c5_witness :
    AppV1.navigateNext apiBoundary iIdle =
      (iIdle, [AppV1.IEvent.call (Call.navigateNext "A"),
               AppV1.IEvent.toast "已经是最后一张" "info"]) :=
  (c5_boundary_leaves_state apiBoundary iIdle "A"
    { success := false, index := 0 } rfl rfl).1 rfl

/-- C6: `undo` whose server response reports failure surfaces the
server-provided reason through the warning-toast reporting path and
performs no mutation of session state (both in the store-based
`handleUndo` and the index-based `undoAction`); on success `handleUndo`
reloads the current image and then refreshes progress. -/
theorem c6_undo_failure_no_mutation (api : Api) (s : AppV2.StoreState)
    (si : AppV1.IState) (res : UndoResult) (h : api.undo = Except.ok res) :
    (res.success = false →
      AppV2.handleUndo api s =
        (s, [AppV2.Event.call Call.undoCall,
             AppV2.Event.toast res.message "warning"]) ∧
      AppV1.undoAction api si =
        (si, [AppV1.IEvent.call Call.undoCall,
              AppV1.IEvent.toast res.message "warning"])) ∧
    (res.success = true →
      AppV2.handleUndo api s =
        ((AppV2.updateProgress api (AppV2.loadCurrentImage api s).1).1,
         AppV2.Event.call Call.undoCall :: AppV2.Event.toast "撤销成功" "info" ::
           ((AppV2.loadCurrentImage api s).2 ++
            (AppV2.updateProgress api (AppV2.loadCurrentImage api s).1).2))) := by
  constructor
  · intro hf
    constructor
    · unfold AppV2.handleUndo
      simp [h, hf]
    · unfold AppV1.undoAction
      simp [h, hf]
  · intro hs
    unfold AppV2.handleUndo
    simp [h, hs]

/-- Witness for C6: the empty-history scenario
(`{success: false, message: "nothing to undo"}`) on `sA`: state untouched,
reason surfaced as a warning toast. -/
theorem c6_witness :
    AppV2.handleUndo apiUndoEmpty sA =
      (sA, [AppV2.Event.call Call.undoCall,
            AppV2.Event.toast "nothing to undo" "warning"]) :=
  ((c6_undo_failure_no_mutation apiUndoEmpty sA iIdle
    { success := false, message := "nothing to undo" } rfl).1 rfl).1

/-- C8, counterexample: with dataset `A` current but no image path
(`sNoPath`), the store-based `handleSkip` performs no network call and
leaves the state unchanged but reports NOTHING — its trace is only the
button highlight, with no toast — and `handleDelete` likewise returns
silently, contradicting "the operation reports a nothing-selected
condition". -/
theorem c8_counterexample :
    sNoPath.image.path = none ∧
    AppV2.handleSkip apiAllFail sNoPath =
      (sNoPath, [AppV2.Event.highlight "btn-skip"]) ∧
    AppV2.hasToast (AppV2.handleSkip apiAllFail sNoPath).2 = false ∧
    AppV2.handleDelete apiAllFail sNoPath true = (sNoPath, []) :=
  ⟨rfl, rfl, rfl, rfl⟩

/-- C8 (amended): whenever no current dataset or no current image is set,
`annotate`/`skip`/`delete` perform no network call and leave the session
state unchanged in all variants; the index-based `annotate`/`skipImage`
and the store-based `handleAnnotation` report the precondition failure
with a warning toast, but the store-based `handleSkip` (highlight only)
and `handleDelete` (nothing at all) return silently without reporting. -/
theorem c8_nothing_selected_guards (api : Api) (s : AppV2.StoreState)
    (si : AppV1.IState) (label : Int) (confirmed : Bool)
    (h : s.currentDataset = none ∨ s.image.path = none)
    (hi : si.currentType = none ∨ si.currentImage = none) :
    AppV1.annotate api si label =
      (si, [AppV1.IEvent.toast "请先选择数据类型和图片" "warning"]) ∧
    AppV1.skipImage api si =
      (si, [AppV1.IEvent.toast "请先选择数据类型和图片" "warning"]) ∧
    AppV2.handleAnnotate api s label =
      (s, [AppV2.Event.highlight
             (if label = 1 then "btn-watermarked" else "btn-no-watermarked"),
           AppV2.Event.toast "请先选择数据类型" "warning"]) ∧
    AppV2.handleSkip api s = (s, [AppV2.Event.highlight "btn-skip"]) ∧
    AppV2.handleDelete api s confirmed = (s, []) := by
  refine ⟨?_, ?_, ?_, ?_, ?_⟩
  · unfold AppV1.annotate
    rcases hi with hi | hi
    · cases hI : si.currentImage <;> simp [hi, hI]
    · cases hT : si.currentType <;> simp [hi, hT]
  · unfold AppV1.skipImage
    rcases hi with hi | hi
    · cases hI : si.currentImage <;> simp [hi, hI]
    · cases hT : si.currentType <;> simp [hi, hT]
  · unfold AppV2.handleAnnotate
    rcases h with h | h
    · cases hP : s.image.path <;> simp [h, hP]
    · cases hD : s.currentDataset <;> simp [h, hD]
  · unfold AppV2.handleSkip
    rcases h with h | h
    · cases hP : s.image.path <;> simp [h, hP]
    · cases hD : s.currentDataset <;> simp [h, hD]
  · unfold AppV2.handleDelete
    rcases h with h | h
    · cases hP : s.image.path <;> simp [h, hP]
    · cases hD : s.currentDataset <;> simp [h, hD]

/-- Witness for the amended theorem of C8 at `sNoPath` / `iNoImage`. -/
theorem c8_witness :
    AppV1.annotate apiAllFail iNoImage 1 =
      (iNoImage, [AppV1.IEvent.toast "请先选择数据类型和图片" "warning"]) ∧
    AppV2.handleSkip apiAllFail sNoPath =
      (sNoPath, [AppV2.Event.highlight "btn-skip"]) := by
  have h := c8_nothing_selected_guards apiAllFail sNoPath iNoImage 1 true
    (Or.inr rfl) (Or.inr rfl)
  exact ⟨h.1, h.2.2.2.1⟩

/-- Helper: `selectDataset` on the already-current dataset is the
identity with an empty trace. -/
theorem selectDataset_noop (api : Api) (s : AppV2.StoreState) (name : String)
    (h : s.currentDataset = some name) :
    AppV2.selectDataset api s name = (s, []) := by
  unfold AppV2.selectDataset
  rw [if_pos h]

/-- C9: `selectDataset` is idempotent on the already-selected dataset:
when `currentDataset = A` already, `selectDataset(A)` issues no fetch and
leaves the state unchanged (likewise `selectType` in the index-based
app); and for any starting state, `selectDataset(A)` followed by
`selectDataset(A)` equals the single call — the second invocation
produces no event at all. -/
theorem c9_selectDataset_idempotent (api api2 : Api) (s : AppV2.StoreState)
    (si : AppV1.IState) (name : String)
    (h : s.currentDataset = some name) (hi : si.currentType = some name) :
    AppV2.selectDataset api s name = (s, []) ∧
    AppV1.selectType api si name = (si, []) ∧
    AppV2.selectDataset api2 (AppV2.selectDataset api s name).1 name =
      ((AppV2.selectDataset api s name).1, []) := by
  refine ⟨selectDataset_noop api s name h, ?_, ?_⟩
  · unfold AppV1.selectType
    rw [if_pos hi]
  · exact selectDataset_noop api2 (AppV2.selectDataset api s name).1 name
      (AppV2.selectDataset_fst_currentDataset api s name)

/-- Witness for C9 at `sA` / `iIdle` and dataset `A`: re-selecting the
current dataset is a fetch-free no-op. -/
theorem c9_witness :
    AppV2.selectDataset apiAllFail sA "A" = (sA, []) ∧
    AppV1.selectType apiAllFail iIdle "A" = (iIdle, []) := by
  have h := c9_selectDataset_idempotent apiAllFail apiAllFail sA iIdle "A" rfl rfl
  exact ⟨h.1, h.2.1⟩
